import Mathlib

/-!
Shallow embedding of the HostelComplaintX server core: the drizzle schema
(shared/schema.ts), the storage layer (server/storage.ts, `DatabaseStorage`),
the auth routes (server/auth.ts, `setupAuth`) and the request handlers
(server/routes.ts, `registerRoutes`).

Machine conventions: timestamps are `Nat` (an abstract monotone clock);
generated ids (`gen_random_uuid()`) and the current time are passed in as
explicit parameters; the database is an in-memory pair of row lists; the
PostgreSQL foreign key generated by `complaints.studentId.references(users.id)`
(default NO ACTION) is checked explicitly by the mutating operations; a
request is modelled with a single clock instant, so the SQL `defaultNow()`
and the JavaScript `new Date()` of one request read the same value.
-/

namespace HostelComplaintX

/-- Enumeration `user_role` of shared/schema.ts. -/
inductive Role where
  | student
  | admin
deriving DecidableEq, Repr

/-- Enumeration `complaint_status` of shared/schema.ts. -/
inductive Status where
  | pending
  | inprogress
  | resolved
deriving DecidableEq, Repr

/-- Enumeration `complaint_category` of shared/schema.ts. -/
inductive Category where
  | maintenance
  | food
  | cleanliness
  | security
  | wifi
  | other
deriving DecidableEq, Repr

/-- Row of the `users` table of shared/schema.ts.  `password` holds the stored
credential hash.  `roomNumber` and `collegeEmail` are nullable columns. -/
structure User where
  id : String
  username : String
  password : String
  name : String
  role : Role
  roomNumber : Option String
  collegeEmail : Option String
  createdAt : Nat
deriving DecidableEq, Repr

/-- Row of the `complaints` table of shared/schema.ts.  `adminResponse` is a
nullable column with no default, so a fresh row holds `none` there. -/
structure Complaint where
  id : String
  studentId : String
  subject : String
  description : String
  category : Category
  roomNumber : String
  status : Status
  adminResponse : Option String
  createdAt : Nat
  updatedAt : Nat
deriving DecidableEq, Repr

/-- The persistent database: the two tables of shared/schema.ts. -/
structure Db where
  users : List User
  complaints : List Complaint
deriving DecidableEq, Repr

/-! ### ILIKE

The storage layer searches with drizzle `ilike(column, [percent][search][percent])`,
which is the PostgreSQL `ILIKE` operator: case-insensitive `LIKE`-pattern
matching where `%` matches any sequence, `_` matches any one character and a
backslash escapes the following character. -/

/-- PostgreSQL `ILIKE` pattern matching over character lists: `%` matches any
sequence, `_` matches any single character, a backslash escapes the next
pattern character, and letters compare case-insensitively. -/
def likeMatch : List Char → List Char → Bool
  | [], [] => true
  | [], _ :: _ => false
  | '%' :: ps, ts =>
    likeMatch ps ts ||
      (match ts with
       | [] => false
       | _ :: ts2 => likeMatch ('%' :: ps) ts2)
  | '_' :: ps, _ :: ts => likeMatch ps ts
  | '_' :: _, [] => false
  | '\\' :: p :: ps, t :: ts => (p.toLower == t.toLower) && likeMatch ps ts
  | '\\' :: _ :: _, [] => false
  | ['\\'], _ => false
  | p :: ps, t :: ts => (p.toLower == t.toLower) && likeMatch ps ts
  | _ :: _, [] => false
termination_by ps ts => (ts.length, ps.length)

/-- Drizzle `ilike(column, [percent]search[percent])` as used throughout
`DatabaseStorage`: the search string is spliced, unescaped, between two `%`
wildcards. -/
def ilike (search text : String) : Bool :=
  likeMatch ('%' :: (search.data ++ ['%'])) text.data

/-- Case-insensitive substring test.  Modelled from the spec: the spec
describes the search dimension as "a case-insensitive substring match";
this definition follows those words and is compared against the `ilike`
behaviour of the source. -/
def isSubstrCI (needle hay : String) : Bool :=
  decide ((needle.data.map Char.toLower) <:+: (hay.data.map Char.toLower))

/-! ### Zod schemas (shared/schema.ts)

`createInsertSchema` derives, per column: required for NOT NULL columns
without default, optional for columns with a database default, optional and
nullable for nullable columns. Absent required fields fail parsing; present
string fields accept any string, the empty string included; enum columns
accept exactly their literal tokens. -/

/-- Parse a `user_role` literal token. -/
def parseRole : String → Option Role
  | "student" => some .student
  | "admin" => some .admin
  | _ => none

/-- Parse a `complaint_status` literal token. -/
def parseStatus : String → Option Status
  | "pending" => some .pending
  | "inprogress" => some .inprogress
  | "resolved" => some .resolved
  | _ => none

/-- Parse a `complaint_category` literal token. -/
def parseCategory : String → Option Category
  | "maintenance" => some .maintenance
  | "food" => some .food
  | "cleanliness" => some .cleanliness
  | "security" => some .security
  | "wifi" => some .wifi
  | "other" => some .other
  | _ => none

/-- Raw JSON body of a registration / account-creation request: each field is
`none` when absent from the request body. -/
structure RawUserBody where
  username : Option String
  password : Option String
  name : Option String
  role : Option String
  roomNumber : Option String
  collegeEmail : Option String
deriving DecidableEq, Repr

/-- Validated output of `insertUserSchema`: `role` stays optional because the
column carries the database default `student`. -/
structure InsertUser where
  username : String
  password : String
  name : String
  role : Option Role
  roomNumber : Option String
  collegeEmail : String
deriving DecidableEq, Repr

/-- String `.endsWith`, evaluated over the character lists. -/
def strEndsWith (s suffix : String) : Bool :=
  suffix.data.isSuffixOf s.data

/-- The `insertUserSchema` parse of shared/schema.ts: `createInsertSchema(users)`
omitting `id` and `createdAt`, with `collegeEmail` overridden to a required
email that must end in a recognised college domain.  The zod `.email()` format
check is an external library predicate and is passed in as `emailOk`. -/
def insertUserSchema (emailOk : String → Bool) (b : RawUserBody) : Option InsertUser :=
  match b.username, b.password, b.name, b.collegeEmail with
  | some username, some password, some name, some collegeEmail =>
    if emailOk collegeEmail &&
        (strEndsWith collegeEmail "@college.edu" || strEndsWith collegeEmail "@university.edu" ||
          strEndsWith collegeEmail "@edu") then
      match b.role with
      | none => some ⟨username, password, name, none, b.roomNumber, collegeEmail⟩
      | some r =>
        match parseRole r with
        | some role => some ⟨username, password, name, some role, b.roomNumber, collegeEmail⟩
        | none => none
    else none
  | _, _, _, _ => none

/-- Raw JSON body of a complaint submission: each field is `none` when absent. -/
structure RawComplaintBody where
  subject : Option String
  description : Option String
  category : Option String
  roomNumber : Option String
deriving DecidableEq, Repr

/-- Validated output of `insertComplaintSchema`. -/
structure InsertComplaint where
  subject : String
  description : String
  category : Category
  roomNumber : String
deriving DecidableEq, Repr

/-- The `insertComplaintSchema` parse of shared/schema.ts:
`createInsertSchema(complaints)` omitting `id`, `studentId`, `status`,
`adminResponse`, `createdAt` and `updatedAt`, leaving `subject`,
`description`, `category` and `roomNumber` as required fields. -/
def insertComplaintSchema (b : RawComplaintBody) : Option InsertComplaint :=
  match b.subject, b.description, b.category, b.roomNumber with
  | some subject, some description, some category, some roomNumber =>
    match parseCategory category with
    | some cat => some ⟨subject, description, cat, roomNumber⟩
    | none => none
  | _, _, _, _ => none

/-- Validated output of `updateComplaintSchema`
(`createInsertSchema(complaints).pick(status, adminResponse)`): both fields
are optional (the status column has a default, the response column is
nullable); an absent field is skipped by the drizzle update, a present
`adminResponse` may be a string or null. -/
structure UpdateComplaint where
  status : Option Status
  adminResponse : Option (Option String)
deriving DecidableEq, Repr

/-- Raw JSON body of a complaint PATCH: outer `none` means the field is absent
(and is then skipped by the drizzle update), inner `none` models JSON null. -/
structure RawUpdateBody where
  status : Option String
  adminResponse : Option (Option String)
deriving DecidableEq, Repr

/-- The `updateComplaintSchema` parse: a present status must be one of the
three literal tokens, an absent field stays absent. -/
def updateComplaintSchema (b : RawUpdateBody) : Option UpdateComplaint :=
  match b.status with
  | none => some ⟨none, b.adminResponse⟩
  | some s =>
    match parseStatus s with
    | some st => some ⟨some st, b.adminResponse⟩
    | none => none

/-! ### Newest-first ordering

The storage layer orders every listing with `orderBy(desc(createdAt))`. -/

/-- Descending order on a `Nat`-valued key, the order of `orderBy(desc(...))`. -/
def descBy {α : Type} (key : α → Nat) (a b : α) : Prop :=
  key b ≤ key a

instance {α : Type} (key : α → Nat) : DecidableRel (descBy key) :=
  fun _ _ => Nat.decLe _ _

instance {α : Type} (key : α → Nat) : IsTotal α (descBy key) :=
  ⟨fun a b => (Nat.le_total (key b) (key a)).imp id id⟩

instance {α : Type} (key : α → Nat) : IsTrans α (descBy key) :=
  ⟨fun _ _ _ h1 h2 => Nat.le_trans h2 h1⟩

/-! ### DatabaseStorage (server/storage.ts) -/

/-- DatabaseStorage.getUser: first row of `users` with the given id. -/
def getUser (db : Db) (id : String) : Option User :=
  db.users.find? (fun u => u.id == id)

/-- DatabaseStorage.getUserByUsername. -/
def getUserByUsername (db : Db) (username : String) : Option User :=
  db.users.find? (fun u => u.username == username)

/-- DatabaseStorage.createUser: insert with the generated id, the database
defaults (`role` defaults to `student`, `createdAt` to now) and `.returning()`
of the full stored row. -/
def createUser (db : Db) (data : InsertUser) (newId : String) (now : Nat) : User × Db :=
  let u : User :=
    { id := newId
      username := data.username
      password := data.password
      name := data.name
      role := data.role.getD .student
      roomNumber := data.roomNumber
      collegeEmail := some data.collegeEmail
      createdAt := now }
  (u, { db with users := db.users ++ [u] })

/-- Filter argument of DatabaseStorage.getAllUsers. -/
structure UserFilters where
  role : Option Role
  search : Option String
deriving DecidableEq, Repr

/-- WHERE conditions built by DatabaseStorage.getAllUsers: an exact role
condition and an `ilike` condition on name OR username, each added only when
the filter field is present and non-empty (JavaScript truthiness). -/
def userConds (f : UserFilters) (u : User) : Bool :=
  (match f.role with
   | none => true
   | some r => u.role == r) &&
  (match f.search with
   | none => true
   | some s => if s == "" then true else ilike s u.name || ilike s u.username)

/-- DatabaseStorage.getAllUsers: full `users` rows matching the conditions,
ordered by `desc(createdAt)`. -/
def getAllUsers (db : Db) (f : UserFilters) : List User :=
  List.insertionSort (descBy User.createdAt) (db.users.filter (userConds f))

/-- DatabaseStorage.deleteUser: `DELETE FROM users WHERE id = ...`, reporting
whether a row was removed.  When the deleted row is still referenced by a
complaint, the foreign key `complaints.student_id REFERENCES users(id)`
(NO ACTION) makes PostgreSQL raise instead. -/
def deleteUser (db : Db) (id : String) : Except String (Bool × Db) :=
  let removed := db.users.any (fun u => u.id == id)
  if removed && db.complaints.any (fun c => c.studentId == id) then
    .error "foreign key violation on complaints.student_id"
  else
    .ok (removed, { db with users := db.users.filter (fun u => !(u.id == id)) })

/-- DatabaseStorage.createComplaint: insert of the validated data plus the
caller-supplied `studentId` and an explicit `updatedAt`, with the database
defaults `status = pending`, `adminResponse = NULL`, `createdAt = now`, and
the foreign key on `studentId` enforced by PostgreSQL at insert time. -/
def createComplaint (db : Db) (data : InsertComplaint) (studentId newId : String)
    (now : Nat) : Except String (Complaint × Db) :=
  if db.users.any (fun u => u.id == studentId) then
    let c : Complaint :=
      { id := newId
        studentId := studentId
        subject := data.subject
        description := data.description
        category := data.category
        roomNumber := data.roomNumber
        status := .pending
        adminResponse := none
        createdAt := now
        updatedAt := now }
    .ok (c, { db with complaints := db.complaints ++ [c] })
  else .error "foreign key violation on complaints.student_id"

/-- DatabaseStorage.getComplaintsByStudent: the student's complaints, ordered
by `desc(createdAt)`. -/
def getComplaintsByStudent (db : Db) (studentId : String) : List Complaint :=
  List.insertionSort (descBy Complaint.createdAt)
    (db.complaints.filter (fun c => c.studentId == studentId))

/-- Owner projection selected by the admin listings: `users.id`, `users.name`,
`users.username`, `users.roomNumber`. -/
structure StudentProj where
  id : String
  name : String
  username : String
  roomNumber : Option String
deriving DecidableEq, Repr

/-- A complaint row joined with its owner projection.  The `leftJoin` leaves
`student` as `none` when no `users` row matches `studentId`; the TypeScript
code then merely casts the null away (`row.student!`), so the model keeps the
option. -/
structure ComplaintWithStudent where
  toComplaint : Complaint
  student : Option StudentProj
deriving DecidableEq, Repr

/-- Owner projection of a `users` row. -/
def ownerProj (u : User) : StudentProj :=
  { id := u.id, name := u.name, username := u.username, roomNumber := u.roomNumber }

/-- The `leftJoin(users, eq(complaints.studentId, users.id))` of the admin
complaint queries, producing one joined row per complaint. -/
def joinStudent (db : Db) (c : Complaint) : ComplaintWithStudent :=
  ⟨c, (db.users.find? (fun u => u.id == c.studentId)).map ownerProj⟩

/-- Filter argument of DatabaseStorage.getAllComplaints. -/
structure ComplaintFilters where
  status : Option Status
  category : Option Category
  search : Option String
deriving DecidableEq, Repr

/-- Search condition of getAllComplaints: `ilike` on subject OR description OR
the joined owner name; an `ilike` against the NULL name of an unmatched left
join is not true. -/
def searchCond (s : String) (r : ComplaintWithStudent) : Bool :=
  ilike s r.toComplaint.subject || ilike s r.toComplaint.description ||
    (match r.student with
     | some st => ilike s st.name
     | none => false)

/-- WHERE conditions built by getAllComplaints: exact status, exact category
and the search disjunction, each added only when the filter field is present
and non-empty (JavaScript truthiness), combined with AND. -/
def complaintConds (f : ComplaintFilters) (r : ComplaintWithStudent) : Bool :=
  (match f.status with
   | none => true
   | some s => r.toComplaint.status == s) &&
  (match f.category with
   | none => true
   | some c => r.toComplaint.category == c) &&
  (match f.search with
   | none => true
   | some s => if s == "" then true else searchCond s r)

/-- DatabaseStorage.getAllComplaints: join every complaint with its owner
projection, keep the rows satisfying the conditions, order by
`desc(createdAt)`. -/
def getAllComplaints (db : Db) (f : ComplaintFilters) : List ComplaintWithStudent :=
  List.insertionSort (descBy (fun r => r.toComplaint.createdAt))
    ((db.complaints.map (joinStudent db)).filter (complaintConds f))

/-- DatabaseStorage.getComplaintById: the joined row whose complaint id
matches, if any. -/
def getComplaintById (db : Db) (id : String) : Option ComplaintWithStudent :=
  (db.complaints.find? (fun c => c.id == id)).map (joinStudent db)

/-- Application of a validated PATCH to one complaint row: present fields are
replaced wholly, absent fields are skipped, `updatedAt` is set to now. -/
def applyUpdate (u : UpdateComplaint) (now : Nat) (c : Complaint) : Complaint :=
  { c with
    status := u.status.getD c.status
    adminResponse := u.adminResponse.getD c.adminResponse
    updatedAt := now }

/-- DatabaseStorage.updateComplaintStatus: `UPDATE complaints SET ...,
updated_at = now WHERE id = ...` with `.returning()`; yields the updated row
(or `none` when the id matches nothing) and the new table state. -/
def updateComplaintStatus (db : Db) (id : String) (u : UpdateComplaint)
    (now : Nat) : Option Complaint × Db :=
  ((db.complaints.find? (fun c => c.id == id)).map (applyUpdate u now),
   { db with
     complaints := db.complaints.map (fun c => if c.id == id then applyUpdate u now c else c) })

/-- Result shape of DatabaseStorage.getComplaintStats. -/
structure ComplaintStats where
  total : Nat
  pending : Nat
  inprogress : Nat
  resolved : Nat
deriving DecidableEq, Repr

/-- DatabaseStorage.getComplaintStats: counts over all complaints. -/
def getComplaintStats (db : Db) : ComplaintStats :=
  { total := db.complaints.length
    pending := (db.complaints.filter (fun c => c.status == .pending)).length
    inprogress := (db.complaints.filter (fun c => c.status == .inprogress)).length
    resolved := (db.complaints.filter (fun c => c.status == .resolved)).length }

/-- Result shape of DatabaseStorage.getStudentComplaintStats: the scoped
variant deliberately has no separate in-progress bucket. -/
structure StudentComplaintStats where
  total : Nat
  pending : Nat
  resolved : Nat
deriving DecidableEq, Repr

/-- DatabaseStorage.getStudentComplaintStats: counts over one student's
complaints. -/
def getStudentComplaintStats (db : Db) (studentId : String) : StudentComplaintStats :=
  let mine := db.complaints.filter (fun c => c.studentId == studentId)
  { total := mine.length
    pending := (mine.filter (fun c => c.status == .pending)).length
    resolved := (mine.filter (fun c => c.status == .resolved)).length }

/-! ### Request handlers (server/routes.ts, server/auth.ts)

A handler takes the database and the caller session (`req.user`, `none` for an
anonymous request) and yields an HTTP status, an optional response payload,
the database afterwards and the list of storage operations it invoked. -/

/-- Outcome of one request handler. -/
structure HResult (α : Type) where
  status : Nat
  body : Option α
  db : Db
  storeOps : List String
deriving Repr

/-- The requireAuth middleware condition: `req.isAuthenticated() && req.user`. -/
def requireAuth (session : Option User) : Bool :=
  session.isSome

/-- The requireAdmin middleware condition:
`req.isAuthenticated() && req.user && req.user.role === admin`. -/
def requireAdmin (session : Option User) : Bool :=
  match session with
  | some u => u.role == .admin
  | none => false

/-- POST /api/complaints: requireAuth, then a student-only check, then zod
validation, then `createComplaint` with the session user as owner. -/
def postComplaints (db : Db) (session : Option User) (body : RawComplaintBody)
    (newId : String) (now : Nat) : HResult Complaint :=
  match session with
  | none => ⟨401, none, db, []⟩
  | some user =>
    if user.role == .student then
      match insertComplaintSchema body with
      | none => ⟨400, none, db, []⟩
      | some data =>
        match createComplaint db data user.id newId now with
        | .ok (c, db2) => ⟨201, some c, db2, ["createComplaint"]⟩
        | .error _ => ⟨500, none, db, ["createComplaint"]⟩
    else ⟨403, none, db, []⟩

/-- GET /api/complaints/my: requireAuth, student-only, own complaints. -/
def getMyComplaints (db : Db) (session : Option User) : HResult (List Complaint) :=
  match session with
  | none => ⟨401, none, db, []⟩
  | some user =>
    if user.role == .student then
      ⟨200, some (getComplaintsByStudent db user.id), db, ["getComplaintsByStudent"]⟩
    else ⟨403, none, db, []⟩

/-- GET /api/complaints/stats/my: requireAuth, student-only, own stats. -/
def getMyStats (db : Db) (session : Option User) : HResult StudentComplaintStats :=
  match session with
  | none => ⟨401, none, db, []⟩
  | some user =>
    if user.role == .student then
      ⟨200, some (getStudentComplaintStats db user.id), db, ["getStudentComplaintStats"]⟩
    else ⟨403, none, db, []⟩

/-- GET /api/complaints: requireAdmin, filtered admin listing. -/
def getComplaintsRoute (db : Db) (session : Option User) (f : ComplaintFilters) :
    HResult (List ComplaintWithStudent) :=
  if requireAdmin session then
    ⟨200, some (getAllComplaints db f), db, ["getAllComplaints"]⟩
  else ⟨403, none, db, []⟩

/-- GET /api/complaints/stats: requireAdmin, global stats. -/
def getStatsRoute (db : Db) (session : Option User) : HResult ComplaintStats :=
  if requireAdmin session then
    ⟨200, some (getComplaintStats db), db, ["getComplaintStats"]⟩
  else ⟨403, none, db, []⟩

/-- GET /api/complaints/:id: requireAdmin, single joined complaint or 404. -/
def getComplaintRoute (db : Db) (session : Option User) (id : String) :
    HResult ComplaintWithStudent :=
  if requireAdmin session then
    match getComplaintById db id with
    | none => ⟨404, none, db, ["getComplaintById"]⟩
    | some r => ⟨200, some r, db, ["getComplaintById"]⟩
  else ⟨403, none, db, []⟩

/-- PATCH /api/complaints/:id: requireAdmin, zod validation, then
`updateComplaintStatus`, 404 when the id matched nothing. -/
def patchComplaintRoute (db : Db) (session : Option User) (id : String)
    (body : RawUpdateBody) (now : Nat) : HResult Complaint :=
  if requireAdmin session then
    match updateComplaintSchema body with
    | none => ⟨400, none, db, []⟩
    | some u =>
      match updateComplaintStatus db id u now with
      | (none, db2) => ⟨404, none, db2, ["updateComplaintStatus"]⟩
      | (some c, db2) => ⟨200, some c, db2, ["updateComplaintStatus"]⟩
  else ⟨403, none, db, []⟩

/-- GET /api/users: requireAdmin, filtered account listing. -/
def getUsersRoute (db : Db) (session : Option User) (f : UserFilters) :
    HResult (List User) :=
  if requireAdmin session then
    ⟨200, some (getAllUsers db f), db, ["getAllUsers"]⟩
  else ⟨403, none, db, []⟩

/-- POST /api/users: requireAdmin, zod validation, username-uniqueness check,
then `createUser` with the hashed credential; responds with the stored row.
The scrypt-based `hashPassword` primitive is external and passed in. -/
def postUsersRoute (hashPassword : String → String) (emailOk : String → Bool)
    (db : Db) (session : Option User) (body : RawUserBody) (newId : String)
    (now : Nat) : HResult User :=
  if requireAdmin session then
    match insertUserSchema emailOk body with
    | none => ⟨400, none, db, []⟩
    | some data =>
      match getUserByUsername db data.username with
      | some _ => ⟨400, none, db, ["getUserByUsername"]⟩
      | none =>
        let r := createUser db { data with password := hashPassword data.password } newId now
        ⟨201, some r.1, r.2, ["getUserByUsername", "createUser"]⟩
  else ⟨403, none, db, []⟩

/-- DELETE /api/users/:id: requireAdmin; 204 when a row was removed, 404 when
not, 500 when the store raised (foreign key violation). -/
def deleteUserRoute (db : Db) (session : Option User) (id : String) : HResult Unit :=
  if requireAdmin session then
    match deleteUser db id with
    | .error _ => ⟨500, none, db, ["deleteUser"]⟩
    | .ok (true, db2) => ⟨204, some (), db2, ["deleteUser"]⟩
    | .ok (false, db2) => ⟨404, none, db2, ["deleteUser"]⟩
  else ⟨403, none, db, []⟩

/-- GET /api/user (whoami): 401 when unauthenticated, else the session user. -/
def whoamiRoute (db : Db) (session : Option User) : HResult User :=
  match session with
  | none => ⟨401, none, db, []⟩
  | some u => ⟨200, some u, db, []⟩

/-- Outcome of one auth route: as `HResult` plus the session established by
`req.login`. -/
structure AuthResult where
  status : Nat
  body : Option User
  db : Db
  sessionUser : Option String
deriving Repr

/-- POST /api/register (server/auth.ts): open to anonymous callers; zod
validation, username-uniqueness check, `createUser` with the hashed
credential, then `req.login` on the new account and a 201 with the stored
row. -/
def registerRoute (hashPassword : String → String) (emailOk : String → Bool)
    (db : Db) (body : RawUserBody) (newId : String) (now : Nat) : AuthResult :=
  match insertUserSchema emailOk body with
  | none => ⟨400, none, db, none⟩
  | some data =>
    match getUserByUsername db data.username with
    | some _ => ⟨400, none, db, none⟩
    | none =>
      let r := createUser db { data with password := hashPassword data.password } newId now
      ⟨201, some r.1, r.2, some r.1.id⟩

/-- POST /api/login (server/auth.ts, the passport local strategy): look the
account up by username, compare credentials with the external scrypt
comparison (passed in as `passwordOk supplied stored`), then `req.login` and
a 200 with the stored row. -/
def loginRoute (passwordOk : String → String → Bool) (db : Db)
    (username password : String) : AuthResult :=
  match getUserByUsername db username with
  | none => ⟨401, none, db, none⟩
  | some u =>
    if passwordOk password u.password then ⟨200, some u, db, some u.id⟩
    else ⟨401, none, db, none⟩

/-! ### Concrete demonstration data

Stand-ins for the two external primitives (the scrypt hash and the zod email
format check) and a small population used to evaluate the theorems. -/

/-- Demonstration credential-hashing function (the real one is scrypt). -/
def demoHash (p : String) : String := p ++ "#hashed"

/-- Demonstration email-format predicate (the real one is the zod regex). -/
def demoEmailOk (_ : String) : Bool := true

/-- A student account. -/
def stuAlice : User :=
  ⟨"u1", "alice", "h1", "Alice", .student, some "B-12", some "alice@college.edu", 1⟩

/-- An admin account. -/
def admBoss : User :=
  ⟨"a1", "boss", "h2", "Boss", .admin, none, some "boss@college.edu", 0⟩

/-- A database holding the two accounts and no complaints. -/
def demoDb : Db := ⟨[stuAlice, admBoss], []⟩

/-- The complaint body of the worked example in the spec. -/
def leakyBody : RawComplaintBody :=
  ⟨some "Leaky faucet", some "Bathroom faucet in room B-12 will not stop dripping",
    some "other", some "B-12"⟩

/-- The record that filing `leakyBody` as Alice at instant 5 produces. -/
def leakyComplaint : Complaint :=
  ⟨"c1", "u1", "Leaky faucet", "Bathroom faucet in room B-12 will not stop dripping",
    .other, "B-12", .pending, none, 5, 5⟩

/-- A complaint body whose required string fields are present but blank. -/
def blankBody : RawComplaintBody := ⟨some "", some "", some "other", some "B-12"⟩

/-- A complaint body whose category is absent. -/
def noCategoryBody : RawComplaintBody := ⟨some "s", some "d", none, some "B-12"⟩

/-- A registration body that asks for the admin role. -/
def eveBody : RawUserBody :=
  ⟨some "eve", some "pw", some "Eve", some "admin", none, some "eve@college.edu"⟩

/-- The parse of `eveBody`. -/
def eveInsert : InsertUser := ⟨"eve", "pw", "Eve", some .admin, none, "eve@college.edu"⟩

/-- The demonstration database extended with one complaint owned by Alice. -/
def demoDbC : Db := ⟨[stuAlice, admBoss], [leakyComplaint]⟩

/-! ### C9 -/

/-- C9: for every population of complaints, the global stats satisfy
total = pending + inprogress + resolved. -/
theorem C9_stats_total_eq_sum (db : Db) :
    (getComplaintStats db).total =
      (getComplaintStats db).pending + (getComplaintStats db).inprogress +
        (getComplaintStats db).resolved := by
  simp only [getComplaintStats]
  induction db.complaints with
  | nil => rfl
  | cons c cs ih =>
    rcases hs : c.status <;>
      simp [List.filter_cons, hs, ih] <;> omega

/-! ### C5 -/

/-- C5: every complaint successfully filed through POST /api/complaints has
status pending, no admin response, the calling student as owner, and equal
created and updated timestamps. -/
theorem C5_fileComplaint_defaults (db : Db) (user : User) (body : RawComplaintBody)
    (newId : String) (now : Nat) (c : Complaint)
    (h : (postComplaints db (some user) body newId now).body = some c) :
    c.status = .pending ∧ c.adminResponse = none ∧ c.studentId = user.id ∧
      c.createdAt = c.updatedAt := by
  simp only [postComplaints] at h
  split at h
  · split at h
    · simp at h
    · rename_i data _
      split at h
      · rename_i c0 db2 heq
        unfold createComplaint at heq
        split at heq
        · simp only [Except.ok.injEq, Prod.mk.injEq] at heq
          simp only [← heq.1] at h
          simp only [Option.some.injEq] at h
          subst h
          exact ⟨rfl, rfl, rfl, rfl⟩
        · exact absurd heq (by simp)
      · simp at h
  · simp at h

/-- C5 witness: the worked example of the spec, evaluated concretely. -/
theorem C5_witness :
    leakyComplaint.status = .pending ∧ leakyComplaint.adminResponse = none ∧
      leakyComplaint.studentId = stuAlice.id ∧
      leakyComplaint.createdAt = leakyComplaint.updatedAt :=
  C5_fileComplaint_defaults demoDb stuAlice leakyBody "c1" 5 leakyComplaint (by decide)

/-! ### C3 -/

/-- C3: the unauthenticated /api/register endpoint, given a fresh username and
a payload whose role field is "admin", creates an admin account and logs the
caller into it — self-registration is not restricted to students. -/
theorem C3_register_admin (hash : String → String) (emailOk : String → Bool)
    (db : Db) (b : RawUserBody) (newId : String) (now : Nat) (d : InsertUser)
    (hparse : insertUserSchema emailOk b = some d)
    (hrole : b.role = some "admin")
    (hfresh : getUserByUsername db d.username = none) :
    ∃ u, registerRoute hash emailOk db b newId now =
        ⟨201, some u, { db with users := db.users ++ [u] }, some u.id⟩ ∧
      u.role = Role.admin := by
  have hdrole : d.role = some Role.admin := by
    unfold insertUserSchema at hparse
    split at hparse
    · split at hparse
      · rw [hrole] at hparse
        simp only [parseRole] at hparse
        simp only [Option.some.injEq] at hparse
        rw [← hparse]
      · exact absurd hparse (by simp)
    · exact absurd hparse (by simp)
  refine ⟨(createUser db { d with password := hash d.password } newId now).1, ?_, ?_⟩
  · unfold registerRoute
    rw [hparse]
    simp only [hfresh]
    rfl
  · simp [createUser, hdrole]

/-- C3 witness: registering "eve" with role "admin" on an empty database
creates a logged-in admin account. -/
theorem C3_witness :
    ∃ u, registerRoute demoHash demoEmailOk ⟨[], []⟩ eveBody "u9" 3 =
        ⟨201, some u, ⟨[] ++ [u], []⟩, some u.id⟩ ∧ u.role = Role.admin :=
  C3_register_admin demoHash demoEmailOk ⟨[], []⟩ eveBody "u9" 3 eveInsert
    (by decide) rfl (by decide)

/-! ### C4 -/

/-- C4 counterexample: a complaint body whose required fields are present but
blank passes `insertComplaintSchema`, so the handler creates the record
instead of failing with a validation error. -/
theorem C4_counterexample :
    blankBody.subject = some "" ∧ blankBody.description = some "" ∧
      (postComplaints demoDb (some stuAlice) blankBody "c9" 7).status = 201 ∧
      (postComplaints demoDb (some stuAlice) blankBody "c9" 7).db.complaints.length = 1 := by
  decide

/-- C4 amended: a fileComplaint request fails with a validation error, and no
store mutation is attempted, when a required field is absent from the body or
the category is not one of the six enumerated values; blank-but-present
string fields, however, pass validation. -/
theorem C4_missing_or_bad_category_rejected (db : Db) (user : User)
    (body : RawComplaintBody) (newId : String) (now : Nat)
    (hrole : user.role = Role.student)
    (hbad : body.subject = none ∨ body.description = none ∨ body.roomNumber = none ∨
      body.category = none ∨ ∃ s, body.category = some s ∧ parseCategory s = none) :
    postComplaints db (some user) body newId now = ⟨400, none, db, []⟩ := by
  have hp : insertComplaintSchema body = none := by
    obtain ⟨s0, d0, c0, r0⟩ := body
    unfold insertComplaintSchema
    rcases hbad with h | h | h | h | ⟨s, h, hps⟩ <;> simp only at h
    · subst h; rfl
    · subst h; cases s0 <;> rfl
    · subst h; cases s0 <;> cases d0 <;> cases c0 <;> rfl
    · subst h; cases s0 <;> cases d0 <;> rfl
    · subst h; cases s0 <;> cases d0 <;> cases r0 <;> simp [hps]
  simp only [postComplaints, hrole, hp, beq_self_eq_true, if_true]

/-- C4 witness: a body with no category field is rejected with 400 and the
database is untouched. -/
theorem C4_witness :
    postComplaints demoDb (some stuAlice) noCategoryBody "c9" 7 =
      ⟨400, none, demoDb, []⟩ :=
  C4_missing_or_bad_category_rejected demoDb stuAlice noCategoryBody "c9" 7 rfl
    (Or.inr (Or.inr (Or.inr (Or.inl rfl))))

/-! ### C1 -/

/-- C1 counterexample: registering a fresh account answers 201 with the full
stored row, whose password field is exactly the stored credential hash — the
hash is returned to the caller. -/
theorem C1_counterexample :
    ((registerRoute demoHash demoEmailOk ⟨[], []⟩ eveBody "u9" 3).body.map User.password) =
        some (demoHash "pw") ∧
      ((registerRoute demoHash demoEmailOk ⟨[], []⟩ eveBody "u9" 3).db.users.map User.password) =
        [demoHash "pw"] := by
  decide

/-- C1 amended: every successful account-creating or account-returning
operation returns the full stored account row, credential hash included:
register and create-account answer with the freshly stored row whose password
field is the hash of the submitted credential, list-accounts returns stored
rows unchanged, and login returns the stored row of the authenticated
account. -/
theorem C1_payload_contains_hash :
    (∀ (hash : String → String) (emailOk : String → Bool) (db : Db) (b : RawUserBody)
        (nid : String) (t : Nat) (d : InsertUser),
        insertUserSchema emailOk b = some d →
        (registerRoute hash emailOk db b nid t).status = 201 →
        ∃ u, (registerRoute hash emailOk db b nid t).body = some u ∧
          u.password = hash d.password ∧
          u ∈ (registerRoute hash emailOk db b nid t).db.users)
    ∧ (∀ (hash : String → String) (emailOk : String → Bool) (db : Db)
        (sess : Option User) (b : RawUserBody) (nid : String) (t : Nat) (d : InsertUser),
        insertUserSchema emailOk b = some d →
        (postUsersRoute hash emailOk db sess b nid t).status = 201 →
        ∃ u, (postUsersRoute hash emailOk db sess b nid t).body = some u ∧
          u.password = hash d.password ∧
          u ∈ (postUsersRoute hash emailOk db sess b nid t).db.users)
    ∧ (∀ (db : Db) (sess : Option User) (f : UserFilters) (us : List User),
        (getUsersRoute db sess f).body = some us → ∀ u ∈ us, u ∈ db.users)
    ∧ (∀ (pOk : String → String → Bool) (db : Db) (un pw : String) (u : User),
        (loginRoute pOk db un pw).body = some u → u ∈ db.users) := by
  refine ⟨?_, ?_, ?_, ?_⟩
  · intro hash emailOk db b nid t d hparse h201
    unfold registerRoute at h201 ⊢
    simp only [hparse] at h201 ⊢
    cases hfind : getUserByUsername db d.username with
    | some u0 =>
      simp only [hfind] at h201
      simp at h201
    | none =>
      simp only [hfind]
      exact ⟨_, rfl, rfl, List.mem_append_right _ (List.mem_singleton.mpr rfl)⟩
  · intro hash emailOk db sess b nid t d hparse h201
    unfold postUsersRoute at h201 ⊢
    by_cases hadm : requireAdmin sess = true
    · rw [if_pos hadm] at h201 ⊢
      simp only [hparse] at h201 ⊢
      cases hfind : getUserByUsername db d.username with
      | some u0 =>
        simp only [hfind] at h201
        simp at h201
      | none =>
        simp only [hfind]
        exact ⟨_, rfl, rfl, List.mem_append_right _ (List.mem_singleton.mpr rfl)⟩
    · rw [if_neg hadm] at h201
      simp at h201
  · intro db sess f us hbody u hu
    unfold getUsersRoute at hbody
    by_cases hadm : requireAdmin sess = true
    · rw [if_pos hadm] at hbody
      have hb2 : getAllUsers db f = us := by simpa using hbody
      subst hb2
      unfold getAllUsers at hu
      exact (List.mem_filter.mp ((List.mem_insertionSort (descBy User.createdAt)).mp hu)).1
    · rw [if_neg hadm] at hbody
      simp at hbody
  · intro pOk db un pw u hbody
    unfold loginRoute at hbody
    cases hfind : getUserByUsername db un with
    | none =>
      simp only [hfind] at hbody
      simp at hbody
    | some u0 =>
      simp only [hfind] at hbody
      have hmem : u0 ∈ db.users := List.mem_of_find?_eq_some hfind
      by_cases hok : pOk pw u0.password = true
      · rw [if_pos hok] at hbody
        have : u0 = u := by simpa using hbody
        subst this; exact hmem
      · rw [if_neg hok] at hbody
        simp at hbody

/-- C1 witness: the amended statement evaluated on a concrete registration. -/
theorem C1_witness :
    ∃ u, (registerRoute demoHash demoEmailOk ⟨[], []⟩ eveBody "u9" 3).body = some u ∧
      u.password = demoHash eveInsert.password ∧
      u ∈ (registerRoute demoHash demoEmailOk ⟨[], []⟩ eveBody "u9" 3).db.users :=
  C1_payload_contains_hash.1 demoHash demoEmailOk ⟨[], []⟩ eveBody "u9" 3 eveInsert
    (by decide) (by decide)

/-! ### C2 -/

/-- C2 counterexample: an anonymous call of the admin complaint listing is
rejected with the 403 Forbidden shape produced by requireAdmin, not with a
401 Unauthenticated. -/
theorem C2_counterexample :
    (getComplaintsRoute demoDb none ⟨none, none, none⟩).status = 403 ∧
      (getComplaintsRoute demoDb none ⟨none, none, none⟩).status ≠ 401 := by
  decide

/-- C2 amended: an anonymous caller is rejected by every operation other than
login and registration before any store operation runs and with the state
unchanged — with 401 Unauthenticated on the authenticated-user operations
(file-complaint, list-my-complaints, my-stats, whoami) but with 403 Forbidden
on the admin-guarded operations (list-all, global-stats, get-complaint,
update-complaint, list-accounts, create-account, delete-account). -/
theorem C2_anonymous_fails_closed (db : Db) (body : RawComplaintBody)
    (ub : RawUserBody) (rb : RawUpdateBody) (cf : ComplaintFilters) (uf : UserFilters)
    (id nid : String) (now : Nat) (hash : String → String) (emailOk : String → Bool) :
    postComplaints db none body nid now = ⟨401, none, db, []⟩ ∧
      getMyComplaints db none = ⟨401, none, db, []⟩ ∧
      getMyStats db none = ⟨401, none, db, []⟩ ∧
      whoamiRoute db none = ⟨401, none, db, []⟩ ∧
      getComplaintsRoute db none cf = ⟨403, none, db, []⟩ ∧
      getStatsRoute db none = ⟨403, none, db, []⟩ ∧
      getComplaintRoute db none id = ⟨403, none, db, []⟩ ∧
      patchComplaintRoute db none id rb now = ⟨403, none, db, []⟩ ∧
      getUsersRoute db none uf = ⟨403, none, db, []⟩ ∧
      postUsersRoute hash emailOk db none ub nid now = ⟨403, none, db, []⟩ ∧
      deleteUserRoute db none id = ⟨403, none, db, []⟩ :=
  ⟨rfl, rfl, rfl, rfl, rfl, rfl, rfl, rfl, rfl, rfl, rfl⟩

/-! ### C8 -/

/-- C8 counterexample: with one complaint on file for Alice, the very first
delete of her account raises (foreign key violation, surfaced as 500) instead
of reporting success, and her account row survives. -/
theorem C8_counterexample :
    (deleteUserRoute demoDbC (some admBoss) "u1").status = 500 ∧
      (deleteUserRoute demoDbC (some admBoss) "u1").db = demoDbC ∧
      (getUser demoDbC "u1").isSome = true := by
  decide

/-- C8 amended: for an account that owns no complaints, deleting twice is
never an error: the first call removes the row and reports success (204), the
second reports not found (404); and deleting an absent id reports not found
(404) with the database unchanged.  An account that still owns a complaint is
excluded: there the foreign key makes the first delete raise. -/
theorem C8_delete_twice (db : Db) (sess : Option User) (id : String)
    (hadmin : requireAdmin sess = true)
    (hnoref : db.complaints.all (fun c => !(c.studentId == id)) = true) :
    (db.users.any (fun u => u.id == id) = true →
        (deleteUserRoute db sess id).status = 204 ∧
        (deleteUserRoute (deleteUserRoute db sess id).db sess id).status = 404)
    ∧ (db.users.any (fun u => u.id == id) = false →
        (deleteUserRoute db sess id).status = 404 ∧ (deleteUserRoute db sess id).db = db) := by
  have hany : db.complaints.any (fun c => c.studentId == id) = false := by
    rw [List.any_eq_false]
    intro c hc
    have h1 := List.all_eq_true.mp hnoref c hc
    simpa using h1
  constructor
  · intro hex
    have h1 : deleteUserRoute db sess id =
        ⟨204, some (), { db with users := db.users.filter (fun u => !(u.id == id)) },
          ["deleteUser"]⟩ := by
      unfold deleteUserRoute deleteUser
      rw [if_pos hadmin]
      simp only [hex, hany, Bool.and_false]
      rfl
    rw [h1]
    refine ⟨rfl, ?_⟩
    have h2 : (db.users.filter (fun u => !(u.id == id))).any (fun u => u.id == id) = false := by
      rw [List.any_eq_false]
      intro u hu
      have := (List.mem_filter.mp hu).2
      simpa using this
    unfold deleteUserRoute deleteUser
    rw [if_pos hadmin]
    simp only [h2, hany, Bool.and_false, Bool.false_and]
    rfl
  · intro hex
    have hfix : db.users.filter (fun u => !(u.id == id)) = db.users := by
      rw [List.filter_eq_self]
      intro u hu
      have := List.any_eq_false.mp hex u hu
      simpa using this
    have h1 : deleteUserRoute db sess id = ⟨404, none, db, ["deleteUser"]⟩ := by
      unfold deleteUserRoute deleteUser
      rw [if_pos hadmin]
      simp only [hex, hany, Bool.and_false, Bool.false_and, hfix]
      rfl
    rw [h1]
    exact ⟨rfl, rfl⟩

/-- C8 witness: deleting Alice twice on the complaint-free database: the first
call answers 204, the second 404. -/
theorem C8_witness :
    (deleteUserRoute demoDb (some admBoss) "u1").status = 204 ∧
      (deleteUserRoute (deleteUserRoute demoDb (some admBoss) "u1").db
        (some admBoss) "u1").status = 404 :=
  (C8_delete_twice demoDb (some admBoss) "u1" (by decide) (by decide)).1 (by decide)

/-! ### C6 -/

/-- C6: updateStatus with both fields given replaces status and admin response
wholly (no append), stamps the updated timestamp with the new clock value —
strictly above the old one whenever the clock has advanced — and leaves the
created timestamp, subject, description, category, room number, owner id, the
id itself, every other complaint and all accounts untouched; on a
non-existent id it yields no row and changes nothing. -/
theorem C6_updateStatus (db : Db) (id : String) (s : Status) (resp : Option String)
    (now : Nat) :
    (∀ c, db.complaints.find? (fun x => x.id == id) = some c →
      ∃ c2, (updateComplaintStatus db id ⟨some s, some resp⟩ now).1 = some c2 ∧
        c2.status = s ∧ c2.adminResponse = resp ∧ c2.updatedAt = now ∧
        c2.createdAt = c.createdAt ∧ c2.subject = c.subject ∧
        c2.description = c.description ∧ c2.category = c.category ∧
        c2.roomNumber = c.roomNumber ∧ c2.studentId = c.studentId ∧ c2.id = c.id ∧
        (c.updatedAt < now → c.updatedAt < c2.updatedAt))
    ∧ (updateComplaintStatus db id ⟨some s, some resp⟩ now).2.users = db.users
    ∧ (updateComplaintStatus db id ⟨some s, some resp⟩ now).2.complaints.length =
        db.complaints.length
    ∧ ((updateComplaintStatus db id ⟨some s, some resp⟩ now).2.complaints.filter
          (fun c => !(c.id == id))) =
        db.complaints.filter (fun c => !(c.id == id))
    ∧ (db.complaints.find? (fun x => x.id == id) = none →
        (updateComplaintStatus db id ⟨some s, some resp⟩ now).1 = none ∧
        (updateComplaintStatus db id ⟨some s, some resp⟩ now).2 = db) := by
  refine ⟨?_, rfl, by simp [updateComplaintStatus], ?_, ?_⟩
  · intro c hfind
    refine ⟨applyUpdate ⟨some s, some resp⟩ now c, ?_, rfl, rfl, rfl, rfl, rfl, rfl,
      rfl, rfl, rfl, rfl, fun hlt => hlt⟩
    unfold updateComplaintStatus
    rw [hfind]
    rfl
  · show (db.complaints.map _).filter _ = _
    induction db.complaints with
    | nil => rfl
    | cons c cs ih =>
      by_cases hc : (c.id == id) = true
      · simp only [List.map_cons, List.filter_cons, if_pos hc, applyUpdate]
        simp only [hc, Bool.not_true, Bool.false_eq_true, if_false]
        simp only [applyUpdate] at ih
        exact ih
      · simp only [List.map_cons, List.filter_cons, if_neg hc]
        simp only [Bool.not_eq_true] at hc
        simp only [hc, Bool.not_false, ih]
  · intro hnone
    have hall : ∀ c ∈ db.complaints, (c.id == id) = false := by
      intro c hc
      have h1 := List.find?_eq_none.mp hnone c hc
      simpa using h1
    refine ⟨?_, ?_⟩
    · unfold updateComplaintStatus
      rw [hnone]
      rfl
    · have hmap : ∀ (l : List Complaint), (∀ c ∈ l, (c.id == id) = false) →
          l.map (fun c => if c.id == id then applyUpdate ⟨some s, some resp⟩ now c else c) = l := by
        intro l hl
        induction l with
        | nil => rfl
        | cons c cs ih =>
          rw [List.map_cons, if_neg (by simp [hl c (List.mem_cons_self c cs)]),
            ih (fun x hx => hl x (List.mem_cons_of_mem c hx))]
      show ({ db with complaints := _ } : Db) = db
      rw [hmap db.complaints hall]

/-- C6 witness: resolving the demonstration complaint with response "Fixed" at
instant 9. -/
theorem C6_witness :
    ∃ c2, (updateComplaintStatus demoDbC "c1"
        ⟨some .resolved, some (some "Fixed")⟩ 9).1 = some c2 ∧
      c2.status = .resolved ∧ c2.adminResponse = some "Fixed" ∧ c2.updatedAt = 9 ∧
      c2.createdAt = leakyComplaint.createdAt ∧ c2.subject = leakyComplaint.subject ∧
      c2.description = leakyComplaint.description ∧
      c2.category = leakyComplaint.category ∧
      c2.roomNumber = leakyComplaint.roomNumber ∧
      c2.studentId = leakyComplaint.studentId ∧ c2.id = leakyComplaint.id ∧
      (leakyComplaint.updatedAt < 9 → leakyComplaint.updatedAt < c2.updatedAt) :=
  (C6_updateStatus demoDbC "c1" .resolved (some "Fixed") 9).1 leakyComplaint (by decide)

/-! ### C10 -/

/-- Referential integrity: every complaint's owner id names an existing
account — the invariant enforced by the foreign key
`complaints.student_id REFERENCES users.id`. -/
def fkOk (db : Db) : Prop :=
  ∀ c ∈ db.complaints, ∃ u ∈ db.users, u.id = c.studentId

/-- C10: the owner reference invariant holds across the mutating operations:
a complaint is only created for an existing account and preserves the
invariant; creating an account preserves it; updating a complaint rewrites no
owner id and preserves it; a successful account deletion preserves it; and
deleting an account that still owns a complaint is rejected by the foreign
key instead of removing the account or orphaning the complaint. -/
theorem C10_owner_fk_invariant :
    (∀ (db : Db) (data : InsertComplaint) (sid nid : String) (t : Nat)
        (c : Complaint) (db2 : Db),
        createComplaint db data sid nid t = .ok (c, db2) →
        (∃ u ∈ db.users, u.id = sid) ∧ c.studentId = sid ∧ (fkOk db → fkOk db2))
    ∧ (∀ (db : Db) (d : InsertUser) (nid : String) (t : Nat),
        fkOk db → fkOk (createUser db d nid t).2)
    ∧ (∀ (db : Db) (id : String) (u : UpdateComplaint) (t : Nat),
        (updateComplaintStatus db id u t).2.complaints.map Complaint.studentId =
            db.complaints.map Complaint.studentId ∧
          (fkOk db → fkOk (updateComplaintStatus db id u t).2))
    ∧ (∀ (db : Db) (id : String) (r : Bool) (db2 : Db),
        deleteUser db id = .ok (r, db2) → fkOk db → fkOk db2)
    ∧ (∀ (db : Db) (id : String),
        db.users.any (fun u => u.id == id) = true →
        db.complaints.any (fun c => c.studentId == id) = true →
        deleteUser db id = .error "foreign key violation on complaints.student_id") := by
  refine ⟨?_, ?_, ?_, ?_, ?_⟩
  · intro db data sid nid t c db2 hok
    unfold createComplaint at hok
    by_cases hex : db.users.any (fun u => u.id == sid) = true
    · rw [if_pos hex] at hok
      simp only [Except.ok.injEq, Prod.mk.injEq] at hok
      obtain ⟨hc, hdb2⟩ := hok
      subst hc
      subst hdb2
      obtain ⟨u, hu, hbeq⟩ := List.any_eq_true.mp hex
      have huid : u.id = sid := by simpa using hbeq
      refine ⟨⟨u, hu, huid⟩, rfl, ?_⟩
      intro hfk c0 hc0
      rcases List.mem_append.mp hc0 with hold | hnew
      · exact hfk c0 hold
      · have hce : c0 = _ := List.mem_singleton.mp hnew
        subst hce
        exact ⟨u, hu, huid⟩
    · rw [if_neg hex] at hok
      exact absurd hok (by simp)
  · intro db d nid t hfk c hc
    obtain ⟨u, hu, huid⟩ := hfk c hc
    exact ⟨u, List.mem_append_left _ hu, huid⟩
  · intro db id u t
    constructor
    · unfold updateComplaintStatus
      simp only [List.map_map]
      apply List.map_congr_left
      intro c _
      simp only [Function.comp_apply]
      split <;> rfl
    · intro hfk c2 hc2
      unfold updateComplaintStatus at hc2
      simp only [List.mem_map] at hc2
      obtain ⟨c, hc, hceq⟩ := hc2
      obtain ⟨u0, hu0, huid⟩ := hfk c hc
      refine ⟨u0, hu0, ?_⟩
      rw [← hceq]
      split
      · exact huid
      · exact huid
  · intro db id r db2 hok hfk
    unfold deleteUser at hok
    by_cases hcond : (db.users.any (fun u => u.id == id) &&
        db.complaints.any (fun c => c.studentId == id)) = true
    · rw [if_pos hcond] at hok
      exact absurd hok (by simp)
    · rw [if_neg hcond] at hok
      simp only [Except.ok.injEq, Prod.mk.injEq] at hok
      obtain ⟨hr, hdb2⟩ := hok
      subst hdb2
      intro c hc
      obtain ⟨u, hu, huid⟩ := hfk c hc
      have hneq : u.id ≠ id := by
        intro hne
        apply hcond
        simp only [Bool.and_eq_true]
        refine ⟨List.any_eq_true.mpr ⟨u, hu, by simp [hne]⟩,
          List.any_eq_true.mpr ⟨c, hc, ?_⟩⟩
        have : c.studentId = id := by rw [← huid, hne]
        simp [this]
      exact ⟨u, List.mem_filter.mpr ⟨hu, by simp [hneq]⟩, huid⟩
  · intro db id hu hc
    unfold deleteUser
    have hcond : (db.users.any (fun u => u.id == id) &&
        db.complaints.any (fun c => c.studentId == id)) = true := by
      simp [hu, hc]
    rw [if_pos hcond]

/-- C10 witness: deleting Alice while her complaint is on file is rejected by
the foreign key. -/
theorem C10_witness :
    deleteUser demoDbC "u1" =
      .error "foreign key violation on complaints.student_id" :=
  C10_owner_fk_invariant.2.2.2.2 demoDbC "u1" (by decide) (by decide)

/-! ### C7 -/

/-- Helper: when account ids are unique, the left join resolves a complaint's
owner to the unique account with the matching id. -/
theorem find?_user_eq_some (users : List User) (hnodup : (users.map User.id).Nodup)
    (u : User) (hu : u ∈ users) (sid : String) (huid : u.id = sid) :
    users.find? (fun v => v.id == sid) = some u := by
  induction users with
  | nil => cases hu
  | cons w ws ih =>
    rw [List.map_cons] at hnodup
    have hnd := List.nodup_cons.mp hnodup
    rcases List.mem_cons.mp hu with rfl | hmem
    · exact List.find?_cons_of_pos _ (by simp [huid])
    · have hw : (w.id == sid) = false := by
        have : w.id ≠ sid := by
          intro hws
          exact hnd.1 (by
            rw [hws, ← huid]
            exact List.mem_map.mpr ⟨u, hmem, rfl⟩)
        simp [this]
      rw [List.find?_cons_of_neg _ (by simp [hw])]
      exact ih hnd.2 hmem

/-- Helper: the truthiness-guarded search condition of getAllComplaints, on a
row joined with its owner, translated to a proposition. -/
theorem searchClause_iff (q : String) (c : Complaint) (u : User) :
    ((if q == "" then true
      else searchCond q ⟨c, some (ownerProj u)⟩) = true) ↔
      (q ≠ "" → (ilike q c.subject = true ∨ ilike q c.description = true ∨
        ilike q u.name = true)) := by
  by_cases hq : q = ""
  · simp [hq]
  · have hq2 : (q == "") = false := by simp [hq]
    simp [hq2, searchCond, ownerProj, hq, Bool.or_eq_true, or_assoc]

/-- Helper: the full WHERE condition of getAllComplaints, on a row joined with
its owner, translated to the AND/OR proposition of the spec. -/
theorem complaintConds_iff (f : ComplaintFilters) (c : Complaint) (u : User) :
    complaintConds f ⟨c, some (ownerProj u)⟩ = true ↔
      ((∀ s, f.status = some s → c.status = s) ∧
       (∀ cat, f.category = some cat → c.category = cat) ∧
       (∀ q, f.search = some q → q ≠ "" →
         (ilike q c.subject = true ∨ ilike q c.description = true ∨
           ilike q u.name = true))) := by
  rcases f with ⟨fs, fc, fq⟩
  unfold complaintConds
  simp only [Bool.and_eq_true]
  cases fs <;> cases fc <;> cases fq <;>
    simp [beq_iff_eq, searchCond, ownerProj, Bool.or_eq_true, or_assoc] <;>
    tauto

/-- C7 amended: listAll returns exactly the complaints that pass the exact
status filter, the exact category filter and the search filter — the latter
matching the SQL pattern percent-searchText-percent case-insensitively
(ILIKE) against subject OR description OR the owner's display name, so a
searchText containing the wildcards percent or underscore is not a plain
substring test — with omitted dimensions imposing no constraint, ordered
newest-first by creation time, each row joined with its owner projection. -/
theorem C7_listAll_characterization (db : Db) (f : ComplaintFilters)
    (hnodup : (db.users.map User.id).Nodup)
    (hfk : ∀ c ∈ db.complaints, ∃ u ∈ db.users, u.id = c.studentId) :
    List.Sorted (descBy (fun r : ComplaintWithStudent => r.toComplaint.createdAt))
        (getAllComplaints db f)
    ∧ (∀ r : ComplaintWithStudent, r ∈ getAllComplaints db f ↔
        ∃ c ∈ db.complaints, ∃ u ∈ db.users, u.id = c.studentId ∧
          r = ⟨c, some (ownerProj u)⟩ ∧
          (∀ s, f.status = some s → c.status = s) ∧
          (∀ cat, f.category = some cat → c.category = cat) ∧
          (∀ q, f.search = some q → q ≠ "" →
            (ilike q c.subject = true ∨ ilike q c.description = true ∨
              ilike q u.name = true))) := by
  constructor
  · exact List.sorted_insertionSort _ _
  · intro r
    unfold getAllComplaints
    rw [List.mem_insertionSort, List.mem_filter]
    constructor
    · rintro ⟨hmap, hcond⟩
      obtain ⟨c, hc, hjoin⟩ := List.mem_map.mp hmap
      obtain ⟨u, hu, huid⟩ := hfk c hc
      have hfind : db.users.find? (fun v => v.id == c.studentId) = some u :=
        find?_user_eq_some db.users hnodup u hu c.studentId huid
      have hr : r = ⟨c, some (ownerProj u)⟩ := by
        rw [← hjoin]
        unfold joinStudent
        rw [hfind]
        rfl
      subst hr
      exact ⟨c, hc, u, hu, huid, rfl, (complaintConds_iff f c u).mp hcond⟩
    · rintro ⟨c, hc, u, hu, huid, hr, hprops⟩
      subst hr
      have hfind : db.users.find? (fun v => v.id == c.studentId) = some u :=
        find?_user_eq_some db.users hnodup u hu c.studentId huid
      refine ⟨List.mem_map.mpr ⟨c, hc, ?_⟩, (complaintConds_iff f c u).mpr hprops⟩
      unfold joinStudent
      rw [hfind]
      rfl

/-- An account owning the complaint searched below. -/
def annUser : User := ⟨"u2", "ann", "h3", "Ann", .student, none, some "ann@college.edu", 2⟩

/-- A complaint none of whose searchable fields contains a percent sign. -/
def abcComplaint : Complaint := ⟨"c2", "u2", "abc", "def", .wifi, "R1", .pending, none, 3, 3⟩

/-- The one-complaint population for the search counterexample. -/
def searchDb : Db := ⟨[annUser], [abcComplaint]⟩

/-- A filter whose search text is the ILIKE wildcard percent. -/
def pctFilter : ComplaintFilters := ⟨none, none, some "%"⟩

/-- C7 counterexample: with searchText being the single character percent,
listAll returns the complaint although the search text is not a
case-insensitive substring of its subject, its description or the owner's
display name — the spliced ILIKE pattern makes the wildcard match
everything. -/
theorem C7_counterexample :
    getAllComplaints searchDb pctFilter =
        [⟨abcComplaint, some (ownerProj annUser)⟩] ∧
      isSubstrCI "%" abcComplaint.subject = false ∧
      isSubstrCI "%" abcComplaint.description = false ∧
      isSubstrCI "%" annUser.name = false := by
  refine ⟨?_, by decide, by decide, by decide⟩
  simp [getAllComplaints, searchDb, pctFilter, complaintConds, searchCond,
    joinStudent, annUser, abcComplaint, ownerProj, ilike, likeMatch]

/-- C7 witness: the characterization applied to the concrete population and
filter of the counterexample, at the returned row. -/
theorem C7_witness :
    (⟨abcComplaint, some (ownerProj annUser)⟩ : ComplaintWithStudent) ∈
        getAllComplaints searchDb pctFilter ↔
      ∃ c ∈ searchDb.complaints, ∃ u ∈ searchDb.users, u.id = c.studentId ∧
        (⟨abcComplaint, some (ownerProj annUser)⟩ : ComplaintWithStudent) =
          ⟨c, some (ownerProj u)⟩ ∧
        (∀ s, pctFilter.status = some s → c.status = s) ∧
        (∀ cat, pctFilter.category = some cat → c.category = cat) ∧
        (∀ q, pctFilter.search = some q → q ≠ "" →
          (ilike q c.subject = true ∨ ilike q c.description = true ∨
            ilike q u.name = true)) :=
  (C7_listAll_characterization searchDb pctFilter (by decide) (by decide)).2 _

end HostelComplaintX
